import Mathlib

/-!
Shallow embedding of the wikipedia_api crate (src/lib.rs).

The library exposes a `Page` value (title, url), a closed error type
`WikiError`, and two operations, `Page::search` and `Page::get_summary`,
each of which builds a URL, issues one HTTP GET, decodes the JSON body
and extracts a domain value.  The network transport and the serde JSON
decoder are modelled as oracle functions (`net`, `dec`): `none` stands
for the corresponding Rust failure (`reqwest::get` error, `.json()`
decode error), `some` for success.  Each pipeline also returns the list
of URLs it requested, so that the single-network-call property can be
stated.
-/

namespace WikipediaApi

/-- Error type of src/lib.rs, `enum WikiError`. -/
inductive WikiError where
  | PageNotFoundError (term : String)
  | PageRequestError
  | JsonParseError
  | ResponseError
deriving DecidableEq, Repr

/-- Display impl for WikiError (src/lib.rs lines 22-45): each variant is
rendered as a one-line message; `PageNotFoundError` interpolates the term. -/
def WikiError.display : WikiError → String
  | .PageNotFoundError e => "PageNotFound: Couldn\x27t find \x27" ++ e ++ "\x27."
  | .PageRequestError => "PageRequestError: Internal error."
  | .JsonParseError => "JsonParseError: Internal response parsing error."
  | .ResponseError => "ResponseError: Wikipedia returned an unexpected result."

/-- Wire shape `RPage` (src/lib.rs lines 49-54). -/
structure RPage where
  pageid : Int
  ns : Int
  title : String
  extract : String
deriving DecidableEq, Repr

/-- Wire shape `Query` (src/lib.rs lines 58-60). -/
structure Query where
  pages : List RPage
deriving DecidableEq, Repr

/-- Wire shape `SummaryResponse` (src/lib.rs lines 64-67). -/
structure SummaryResponse where
  batchcomplete : Bool
  query : Query
deriving DecidableEq, Repr

/-- The `SearchResult` tuple `(String, Vec<String>, Vec<String>, Vec<String>)`
of src/lib.rs line 97, with the positional components named: `.0` is the
echoed term, `.1` the titles, `.2` the descriptions, `.3` the urls. -/
structure SearchResult where
  echoedTerm : String
  titles : List String
  descriptions : List String
  urls : List String
deriving DecidableEq, Repr

/-- Domain value `Page` (src/lib.rs lines 71-77).  The Rust fields are
`Rc<str>`; `Rc<str>` equality derived by `PartialEq` compares the
underlying string contents, so `String` fields model it faithfully. -/
structure Page where
  title : String
  url : String
deriving DecidableEq, Repr

/-- Constructor `Page::new` (src/lib.rs lines 81-83): stores the two
caller-supplied strings with no validation. -/
def Page.new (title url : String) : Page :=
  { title := title, url := url }

/-- Accessor `Page::get_title` (src/lib.rs lines 85-88). -/
def Page.get_title (p : Page) : String :=
  p.title

/-- Accessor `Page::get_url` (src/lib.rs lines 90-93). -/
def Page.get_url (p : Page) : String :=
  p.url

/-- One step of `str::replace(' ', "%20")` on the character list: every
space becomes the three characters `%20`, all other characters pass
through untouched (src/lib.rs line 100). -/
def replaceSpacesAux : List Char → List Char
  | [] => []
  | c :: cs =>
      if c = ' ' then '%' :: '2' :: '0' :: replaceSpacesAux cs
      else c :: replaceSpacesAux cs

/-- Model of `search_term.replace(' ', "%20")` (src/lib.rs line 100). -/
def replaceSpaces (s : String) : String :=
  String.mk (replaceSpacesAux s.data)

/-- The Unicode White_Space property, which the Rust method `char::is_whitespace`
(used by `str::trim`) tests. -/
def isRustWhitespace (c : Char) : Bool :=
  let n := c.toNat
  (0x9 ≤ n && n ≤ 0xD) || n = 0x20 || n = 0x85 || n = 0xA0 || n = 0x1680 ||
  (0x2000 ≤ n && n ≤ 0x200A) || n = 0x2028 || n = 0x2029 || n = 0x202F ||
  n = 0x205F || n = 0x3000

/-- Drop trailing whitespace from a character list. -/
def trimRightAux (l : List Char) : List Char :=
  (l.reverse.dropWhile isRustWhitespace).reverse

/-- Model of the Rust method `str::trim` (src/lib.rs line 105): drop leading and
trailing Unicode whitespace. -/
def rustTrim (s : String) : String :=
  String.mk (trimRightAux (s.data.dropWhile isRustWhitespace))

/-- The request URL `Page::search` builds (src/lib.rs lines 99-106):
spaces of the term are replaced by `%20`, the result is trimmed, and the
trimmed segment is interpolated into the fixed opensearch template. -/
def buildSearchUrl (term : String) : String :=
  "https://en.wikipedia.org/w/api.php?action=opensearch&search="
    ++ rustTrim (replaceSpaces term)
    ++ "&limit=1&namespace=0&format=json"

/-- The request URL `Page::get_summary` builds (src/lib.rs lines 139-143):
the stored title is interpolated verbatim (no escaping) into the fixed
query/extracts template. -/
def buildSummaryUrl (title : String) : String :=
  "https://en.wikipedia.org/w/api.php?action=query&format=json&prop=extracts&titles="
    ++ title
    ++ "&formatversion=2&exchars=1000&explaintext=1&redirects=1"

/-- The summary URL as the specification describes it (refinement foil,
built from the spec words, not from the source): query parameters
`action=query&format=json&prop=extracts&titles=<title>&formatversion=2&exintro=1&explaintext=1`. -/
def specSummaryUrl (title : String) : String :=
  "https://en.wikipedia.org/w/api.php?action=query&format=json&prop=extracts&titles="
    ++ title
    ++ "&formatversion=2&exintro=1&explaintext=1"

/-- Pipeline of `Page::search` (src/lib.rs lines 96-136), instrumented
with the list of URLs it requests.  `net url = none` models a failed
`reqwest::get` (early return `PageRequestError`); `dec body = none`
models a failed `.json::<SearchResult>()` (early return
`JsonParseError`).  On a decoded response, `titles.get(0)` and
`urls.get(0)` are consulted; if either is absent the original
`search_term` is carried in `PageNotFoundError`, otherwise
`Page::new(titles[0], urls[0])` is returned. -/
def searchRun (net : String → Option String) (dec : String → Option SearchResult)
    (search_term : String) : Except WikiError Page × List String :=
  match net (buildSearchUrl search_term) with
  | none => (Except.error WikiError.PageRequestError, [buildSearchUrl search_term])
  | some body =>
      match dec body with
      | none => (Except.error WikiError.JsonParseError, [buildSearchUrl search_term])
      | some resp =>
          match resp.titles[0]? with
          | none =>
              (Except.error (WikiError.PageNotFoundError search_term), [buildSearchUrl search_term])
          | some t =>
              match resp.urls[0]? with
              | none =>
                  (Except.error (WikiError.PageNotFoundError search_term),
                    [buildSearchUrl search_term])
              | some u => (Except.ok (Page.new t u), [buildSearchUrl search_term])

/-- The result of `Page::search`, the requested-URL trace projected away. -/
def Page.search (net : String → Option String) (dec : String → Option SearchResult)
    (search_term : String) : Except WikiError Page :=
  (searchRun net dec search_term).1

/-- Pipeline of `Page::get_summary` (src/lib.rs lines 138-169),
instrumented with the list of URLs it requests.  On a decoded
`SummaryResponse`, `resp.query.pages.get(0)` is consulted; if absent the
call fails with `ResponseError`, otherwise the `extract` field of that page is
returned verbatim. -/
def summaryRun (net : String → Option String) (dec : String → Option SummaryResponse)
    (p : Page) : Except WikiError String × List String :=
  match net (buildSummaryUrl p.title) with
  | none => (Except.error WikiError.PageRequestError, [buildSummaryUrl p.title])
  | some body =>
      match dec body with
      | none => (Except.error WikiError.JsonParseError, [buildSummaryUrl p.title])
      | some resp =>
          match resp.query.pages[0]? with
          | none => (Except.error WikiError.ResponseError, [buildSummaryUrl p.title])
          | some x => (Except.ok x.extract, [buildSummaryUrl p.title])

/-- The result of `Page::get_summary`, the requested-URL trace projected
away. -/
def Page.get_summary (p : Page) (net : String → Option String)
    (dec : String → Option SummaryResponse) : Except WikiError String :=
  (summaryRun net dec p).1

/-- Helper: space replacement leaves no literal space character. -/
theorem replaceSpacesAux_no_space (l : List Char) : ' ' ∉ replaceSpacesAux l := by
  induction l with
  | nil => simp [replaceSpacesAux]
  | cons c cs ih =>
      by_cases h : c = ' '
      · simp only [replaceSpacesAux, if_pos h, List.mem_cons, not_or]
        exact ⟨by decide, by decide, by decide, ih⟩
      · simp only [replaceSpacesAux, if_neg h, List.mem_cons, not_or]
        exact ⟨fun h1 => h h1.symm, ih⟩

/-- Helper: space replacement is the identity on space-free input. -/
theorem replaceSpacesAux_id (l : List Char) (h : ' ' ∉ l) : replaceSpacesAux l = l := by
  induction l with
  | nil => rfl
  | cons c cs ih =>
      simp only [List.mem_cons, not_or] at h
      rw [replaceSpacesAux, if_neg fun hc => h.1 hc.symm, ih h.2]

/-- Helper: every run of the search pipeline requests exactly one URL,
the built search URL, on every path. -/
theorem searchRun_trace (net : String → Option String) (dec : String → Option SearchResult)
    (term : String) : (searchRun net dec term).2 = [buildSearchUrl term] := by
  unfold searchRun
  repeat' split
  all_goals rfl

/-- Helper: every run of the summary pipeline requests exactly one URL,
the built summary URL, on every path. -/
theorem summaryRun_trace (net : String → Option String) (dec : String → Option SummaryResponse)
    (p : Page) : (summaryRun net dec p).2 = [buildSummaryUrl p.title] := by
  unfold summaryRun
  repeat' split
  all_goals rfl

/-- Helper: `rustTrim` only removes whitespace characters, and only from
the two ends: the original character list is the trimmed list surrounded
by all-whitespace stretches. -/
theorem rustTrim_decomposition (s : String) :
    ∃ l r, s.data = l ++ (rustTrim s).data ++ r ∧
      ∀ c, c ∈ l ∨ c ∈ r → isRustWhitespace c = true := by
  refine ⟨s.data.takeWhile isRustWhitespace,
    ((s.data.dropWhile isRustWhitespace).reverse.takeWhile isRustWhitespace).reverse, ?_, ?_⟩
  · show s.data = _ ++ (trimRightAux (s.data.dropWhile isRustWhitespace)) ++ _
    unfold trimRightAux
    conv_lhs => rw [← List.takeWhile_append_dropWhile (p := isRustWhitespace) (l := s.data)]
    rw [List.append_assoc]
    congr 1
    conv_lhs => rw [← List.reverse_reverse (s.data.dropWhile isRustWhitespace),
      ← List.takeWhile_append_dropWhile (p := isRustWhitespace)
        (l := (s.data.dropWhile isRustWhitespace).reverse)]
    rw [List.reverse_append]
  · intro c hc
    rcases hc with hc | hc
    · exact List.mem_takeWhile_imp hc
    · exact List.mem_takeWhile_imp (List.mem_reverse.mp hc)

/-- C1 counterexample: for the concrete title `X`, the summary URL the
code builds is not the URL that the template of the specification describes (the
code uses `exchars=1000` and `redirects=1`, not `exintro=1`). -/
theorem summary_url_differs_from_spec : buildSummaryUrl "X" ≠ specSummaryUrl "X" := by
  decide

/-- C1 (amended): `get_summary` interpolates the stored title verbatim
(no escaping) into the fixed template whose query parameters are exactly
`action=query&format=json&prop=extracts&titles=<title>&formatversion=2&exchars=1000&explaintext=1&redirects=1`
against the host `https://en.wikipedia.org/w/api.php`, and every
invocation of the pipeline requests exactly that URL. -/
theorem summary_url_template (title : String) (net : String → Option String)
    (dec : String → Option SummaryResponse) :
    buildSummaryUrl title =
      "https://en.wikipedia.org/w/api.php?action=query&format=json&prop=extracts&titles="
        ++ title ++ "&formatversion=2&exchars=1000&explaintext=1&redirects=1" ∧
    (summaryRun net dec (Page.new title "u")).2 = [buildSummaryUrl title] :=
  ⟨rfl, summaryRun_trace net dec (Page.new title "u")⟩

/-- C2 counterexample: `Page::new` performs no validation, so a `Page`
with an empty title and an empty url is constructible, contradicting the
claimed non-emptiness invariant. -/
theorem page_new_empty_fields :
    (Page.new "" "").get_title = "" ∧ (Page.new "" "").get_url = "" :=
  ⟨rfl, rfl⟩

/-- C2 (amended): a `Page` stores the title and url supplied at
construction verbatim — `Page::new` with arbitrary caller-supplied
strings (empty strings included, no validation), and `Page::search` with
element 0 of the decoded titles and urls sequences — and no operation
mutates a `Page` after construction (accessors return the stored
fields unchanged); the fields are non-empty exactly when the supplied
strings are. -/
theorem page_fields_as_supplied (t u : String) :
    (Page.new t u).title = t ∧ (Page.new t u).url = u ∧
    ((Page.new t u).title = "" ↔ t = "") ∧ ((Page.new t u).url = "" ↔ u = "") ∧
    (Page.new t u).get_title = (Page.new t u).title ∧
    (Page.new t u).get_url = (Page.new t u).url :=
  ⟨rfl, rfl, Iff.rfl, Iff.rfl, rfl, rfl⟩

/-- C3: on a response that decodes to the 4-tuple shape, `Page::search`
returns `PageNotFoundError` carrying exactly the original caller-supplied
term when element 0 of the titles or of the urls sequence is absent, and
`Page{title: titles[0], url: urls[0]}` when both are present. -/
theorem search_extraction (net : String → Option String)
    (dec : String → Option SearchResult) (term body : String) (resp : SearchResult)
    (hnet : net (buildSearchUrl term) = some body) (hdec : dec body = some resp) :
    ((resp.titles[0]? = none ∨ resp.urls[0]? = none) →
        Page.search net dec term = Except.error (WikiError.PageNotFoundError term)) ∧
    (∀ t u, resp.titles[0]? = some t → resp.urls[0]? = some u →
        Page.search net dec term = Except.ok (Page.new t u)) := by
  unfold Page.search searchRun
  rw [hnet]
  simp only [hdec]
  constructor
  · rintro (h | h)
    · simp [h]
    · cases ht : resp.titles[0]? with
      | none => simp [ht]
      | some t => simp [ht, h]
  · intro t u ht hu
    simp [ht, hu]

/-- C3 witness: a concrete decoded response with both elements present
yields the page, exercising the theorem at a concrete input. -/
theorem search_extraction_witness :
    Page.search (fun _ => some "body")
        (fun _ => some ⟨"echo", ["T"], [], ["U"]⟩) "t"
      = Except.ok (Page.new "T" "U") :=
  (search_extraction (fun _ => some "body")
      (fun _ => some ⟨"echo", ["T"], [], ["U"]⟩) "t" "body"
      ⟨"echo", ["T"], [], ["U"]⟩ rfl rfl).2 "T" "U" rfl rfl

/-- C4: `Page::search` builds its URL by replacing every literal space
in the term with `%20` (no other encoding: a space-free term passes
through the replacement untouched, so non-ASCII and reserved characters
are unchanged), trimming the resulting segment, and interpolating it
into the fixed opensearch template; the URL built for `USA test`
contains `USA%20test` and no literal space. -/
theorem build_search_url (term : String) :
    buildSearchUrl term =
      "https://en.wikipedia.org/w/api.php?action=opensearch&search="
        ++ rustTrim (replaceSpaces term) ++ "&limit=1&namespace=0&format=json" ∧
    ' ' ∉ (replaceSpaces term).data ∧
    (' ' ∉ term.data → replaceSpaces term = term) ∧
    buildSearchUrl "USA test" =
      "https://en.wikipedia.org/w/api.php?action=opensearch&search=USA%20test&limit=1&namespace=0&format=json" ∧
    ' ' ∉ (buildSearchUrl "USA test").data := by
  refine ⟨rfl, replaceSpacesAux_no_space term.data, ?_, by decide, by decide⟩
  intro h
  show String.mk (replaceSpacesAux term.data) = term
  rw [replaceSpacesAux_id term.data h]

/-- C5: on a response body that decodes to the `SummaryResponse` shape,
`get_summary` returns `ResponseError` when `query.pages` is empty, and
otherwise returns `Ok` of `pages[0].extract` verbatim. -/
theorem summary_extraction (net : String → Option String)
    (dec : String → Option SummaryResponse) (p : Page) (body : String)
    (resp : SummaryResponse)
    (hnet : net (buildSummaryUrl p.title) = some body) (hdec : dec body = some resp) :
    (resp.query.pages = [] →
        Page.get_summary p net dec = Except.error WikiError.ResponseError) ∧
    (∀ x rest, resp.query.pages = x :: rest →
        Page.get_summary p net dec = Except.ok x.extract) := by
  unfold Page.get_summary summaryRun
  rw [hnet]
  simp only [hdec]
  constructor
  · intro h
    simp [h]
  · intro x rest h
    simp [h]

/-- C5 witness: a concrete decoded response with one page entry yields
its extract, exercising the theorem at a concrete input. -/
theorem summary_extraction_witness :
    Page.get_summary (Page.new "T" "U") (fun _ => some "body")
        (fun _ => some ⟨true, ⟨[⟨7, 0, "T", "E"⟩]⟩⟩)
      = Except.ok "E" :=
  (summary_extraction (fun _ => some "body")
      (fun _ => some ⟨true, ⟨[⟨7, 0, "T", "E"⟩]⟩⟩) (Page.new "T" "U") "body"
      ⟨true, ⟨[⟨7, 0, "T", "E"⟩]⟩⟩ rfl rfl).2 ⟨7, 0, "T", "E"⟩ [] rfl

/-- C6: a transport failure yields `Err(PageRequestError)` and a decode
failure yields `Err(JsonParseError)`, in both operations, always as
returned values of the total pipeline function (never an escape); the
first failure short-circuits the rest of the pipeline — in particular
when the transport fails the result does not depend on the decoder at
all (it is quantified over arbitrary decoders). -/
theorem failures_returned_as_values (dec : String → Option SearchResult)
    (sdec : String → Option SummaryResponse) (term body : String) (p : Page) :
    Page.search (fun _ => none) dec term = Except.error WikiError.PageRequestError ∧
    Page.search (fun _ => some body) (fun _ => none) term
      = Except.error WikiError.JsonParseError ∧
    Page.get_summary p (fun _ => none) sdec = Except.error WikiError.PageRequestError ∧
    Page.get_summary p (fun _ => some body) (fun _ => none)
      = Except.error WikiError.JsonParseError :=
  ⟨rfl, rfl, rfl, rfl⟩

/-- C7: the accessors return exactly the stored strings with no other
effect, and `Page` equality is structural: two pages are equal exactly
when their titles and urls are equal. -/
theorem page_accessors_and_structural_eq (t u : String) (p q : Page) :
    (Page.new t u).get_title = t ∧ (Page.new t u).get_url = u ∧
    (p = q ↔ p.title = q.title ∧ p.url = q.url) := by
  refine ⟨rfl, rfl, ?_, ?_⟩
  · rintro rfl
    exact ⟨rfl, rfl⟩
  · rintro ⟨h1, h2⟩
    cases p
    cases q
    cases h1
    cases h2
    rfl

/-- C8: the display form of every `WikiError` variant:
`PageNotFoundError` interpolates the stored term into
the message stated by the theorem, and the other three variants
render as fixed strings independent of any input. -/
theorem wiki_error_display (term : String) :
    WikiError.display (WikiError.PageNotFoundError term)
      = "PageNotFound: Couldn\x27t find \x27" ++ term ++ "\x27." ∧
    WikiError.display WikiError.PageRequestError = "PageRequestError: Internal error." ∧
    WikiError.display WikiError.JsonParseError
      = "JsonParseError: Internal response parsing error." ∧
    WikiError.display WikiError.ResponseError
      = "ResponseError: Wikipedia returned an unexpected result." :=
  ⟨rfl, rfl, rfl, rfl⟩

/-- C9: every invocation of the search pipeline and of the summary
pipeline requests exactly one URL, on every path — one GET on the
success path and never more than one on any failure path (a stage
failure after the single GET makes no further request). -/
theorem one_network_call_per_operation (net : String → Option String)
    (dec : String → Option SearchResult) (sdec : String → Option SummaryResponse)
    (term : String) (p : Page) :
    (searchRun net dec term).2 = [buildSearchUrl term] ∧
    (summaryRun net sdec p).2 = [buildSummaryUrl p.title] :=
  ⟨searchRun_trace net dec term, summaryRun_trace net sdec p⟩

/-- C10: spaces are replaced with `%20` before the trim, so no literal
space survives into the trimmed segment; the trim can only drop
leading/trailing whitespace characters other than the space itself; and
the URL built for the term with a leading and a trailing space keeps
them as `%20`. -/
theorem trim_after_space_encoding (term : String) :
    ' ' ∉ (replaceSpaces term).data ∧
    (∃ l r, (replaceSpaces term).data = l ++ (rustTrim (replaceSpaces term)).data ++ r ∧
        ∀ c, c ∈ l ∨ c ∈ r → isRustWhitespace c = true ∧ c ≠ ' ') ∧
    buildSearchUrl " a " =
      "https://en.wikipedia.org/w/api.php?action=opensearch&search=%20a%20&limit=1&namespace=0&format=json" := by
  have hno : ' ' ∉ (replaceSpaces term).data := replaceSpacesAux_no_space term.data
  refine ⟨hno, ?_, by decide⟩
  obtain ⟨l, r, hsplit, hws⟩ := rustTrim_decomposition (replaceSpaces term)
  refine ⟨l, r, hsplit, fun c hc => ⟨hws c hc, fun hsp => ?_⟩⟩
  subst hsp
  apply hno
  rw [hsplit]
  rcases hc with hc | hc
  · exact List.mem_append.mpr (Or.inl (List.mem_append.mpr (Or.inl hc)))
  · exact List.mem_append.mpr (Or.inr hc)

end WikipediaApi
